import Mathlib

/-!
Verification development for the yfinance AWS data-pipeline repository
(AWS CDK TypeScript stacks, Lambda transform, Athena CTAS script).

The CDK stacks (`bin/stock-etl.ts`, `lib/*.ts`) and the curated-views
script (`scripts/create-curated-views.js`) are embedded from their
TypeScript/JavaScript sources.  The Python Lambda bodies
(`lambda/fetch_stock/index.py`, `lambda/transform_parquet/index.py`) are
not part of the source tree; they are modelled from the specification and
from the literal code excerpts quoted in the repository's documentation.
-/

namespace YF

/-! ## Reference (master) data

Record schema per the DynamoDB seed and `dynamodb-stack.ts`:
ticker (unique key), name, sector, exchange, country, is_active. -/

structure MasterRec where
  name : String
  sector : String
  exchange : String
  country : String
  is_active : Bool
deriving DecidableEq, Repr

/-- The master table, keyed by ticker (DynamoDB partition key `ticker`). -/
abbrev Master := List (String × MasterRec)

/-- Key lookup in the master table (`lookup(ticker) -> Record | NotFound`). -/
def lookupMaster (m : Master) (ticker : String) : Option MasterRec :=
  (m.find? (fun p => p.1 == ticker)).map Prod.snd

/-! ## Raw observations -/

/-- One CSV row: one observation per (ticker, date) with OHLCV payload.
The numeric payload is carried as the raw CSV cell text; no claim in this
development depends on its arithmetic value. -/
structure RawRow where
  ticker : String
  date : String
  open_px : String
  high_px : String
  low_px : String
  close_px : String
  volume : String
deriving DecidableEq, Repr

/-- Modelled from the spec: partition-year extraction of the transform
Lambda, whose source `lambda/transform_parquet/index.py` is absent from
the tree; the roadmap document quotes it as `df['year'] = df['date'].str[:4]`. -/
def yearOf (date : String) : String := date.take 4

/-- Modelled from the spec: partition-month extraction,
quoted as `df['month'] = df['date'].str[5:7]`. -/
def monthOf (date : String) : String := (date.drop 5).take 2

/-- Modelled from the spec: partition-day extraction,
quoted as `df['day'] = df['date'].str[8:10]`. -/
def dayOf (date : String) : String := (date.drop 8).take 2

/-- Modelled from the spec: sector resolution with the spec's
`sector-or-"unknown"` fallback for tickers missing from master data. -/
def sectorOrUnknown (m : Master) (ticker : String) : String :=
  match lookupMaster m ticker with
  | some rec => rec.sector
  | none => "unknown"

/-- Modelled from the spec: the raw-bucket object key built by the fetch
Lambda (absent from the tree), quoted in the roadmap document as
`s3_key = f"raw/.../..._....csv"` over ticker, year, month, day, date. -/
def s3_key (ticker date : String) : String :=
  "raw/" ++ ticker ++ "/" ++ yearOf date ++ "/" ++ monthOf date ++ "/" ++
    dayOf date ++ "/" ++ ticker ++ "_" ++ date ++ ".csv"

/-- Modelled from the spec: the processed-bucket object key built by the
transform Lambda (absent from the tree), quoted in the roadmap document as
`output_key = f"sector=.../ticker=.../year=.../month=.../day=.../data.parquet"`. -/
def output_key (sector ticker year month day : String) : String :=
  "sector=" ++ sector ++ "/ticker=" ++ ticker ++ "/year=" ++ year ++
    "/month=" ++ month ++ "/day=" ++ day ++ "/data.parquet"

/-- The output partition key of one raw row under a given master table. -/
def rowOutputKey (m : Master) (r : RawRow) : String :=
  output_key (sectorOrUnknown m r.ticker) r.ticker
    (yearOf r.date) (monthOf r.date) (dayOf r.date)

/-! ## Enrichment and the processed store -/

/-- Enriched row schema per the spec: ticker, date, year, month, day,
OHLCV, sector, exchange, country, ingested_at, source_file. -/
structure EnrichedRow where
  ticker : String
  date : String
  year : String
  month : String
  day : String
  open_px : String
  high_px : String
  low_px : String
  close_px : String
  volume : String
  sector : String
  exchange : String
  country : String
  ingested_at : String
  source_file : String
deriving DecidableEq, Repr

/-- Modelled from the spec: the transform's left join of one raw row with
the master record, plus derived partition fields and provenance fields. -/
def enrichRow (m : Master) (ingested_at source_file : String) (r : RawRow) :
    EnrichedRow :=
  { ticker := r.ticker
    date := r.date
    year := yearOf r.date
    month := monthOf r.date
    day := dayOf r.date
    open_px := r.open_px
    high_px := r.high_px
    low_px := r.low_px
    close_px := r.close_px
    volume := r.volume
    sector := sectorOrUnknown m r.ticker
    exchange := (lookupMaster m r.ticker).elim "" MasterRec.exchange
    country := (lookupMaster m r.ticker).elim "" MasterRec.country
    ingested_at := ingested_at
    source_file := source_file }

/-- Modelled from the spec: the transform's output for one input file —
one (partition key, enriched row) write per input row. -/
def transformOutputs (m : Master) (ingested_at source_file : String)
    (rows : List RawRow) : List (String × EnrichedRow) :=
  rows.map (fun r => (rowOutputKey m r, enrichRow m ingested_at source_file r))

/-- The processed store: the multiset of (object key, enriched row) writes,
in write order.  Output is append-only (spec §4.1: no delete, no compaction). -/
abbrev ProcessedStore := List (String × EnrichedRow)

/-- Modelled from the spec: one transform run appends its outputs to the
processed store (append rather than upsert, spec §4.4). -/
def runTransform (m : Master) (ingested_at source_file : String)
    (rows : List RawRow) (store : ProcessedStore) : ProcessedStore :=
  store ++ transformOutputs m ingested_at source_file rows

/-- Run result reported by a transform invocation. -/
structure TransformResult where
  success : Bool
  rowsProcessed : Nat
deriving DecidableEq, Repr

/-- Modelled from the spec: a full transform invocation on one (already
parsed) raw file returns the new store and reports success with the number
of rows processed (spec §8.5). -/
def runTransformFile (m : Master) (ingested_at source_file : String)
    (rows : List RawRow) (store : ProcessedStore) :
    ProcessedStore × TransformResult :=
  (runTransform m ingested_at source_file rows store, ⟨true, rows.length⟩)

/-! ## Counting observations per (ticker, date) -/

/-- Number of enriched observations stored for a given (ticker, date). -/
def countTD (store : ProcessedStore) (t d : String) : Nat :=
  (store.filter (fun p => p.2.ticker == t && p.2.date == d)).length

/-- Number of input rows with a given (ticker, date). -/
def tdCount (rows : List RawRow) (t d : String) : Nat :=
  (rows.filter (fun r => r.ticker == t && r.date == d)).length

/-- One transform invocation: its provenance context and its input rows. -/
structure TransformCall where
  ingested_at : String
  source_file : String
  rows : List RawRow
deriving DecidableEq, Repr

/-- The processed store reached by a sequence of transform runs starting
from the empty store. -/
def runHistory (m : Master) (calls : List TransformCall) : ProcessedStore :=
  calls.foldl (fun st c => runTransform m c.ingested_at c.source_file c.rows st) []

/-! ## Sample data (DynamoDB seed excerpt) -/

def appleRec : MasterRec :=
  { name := "Apple Inc.", sector := "Technology", exchange := "NASDAQ",
    country := "USA", is_active := true }

def msftRec : MasterRec :=
  { name := "Microsoft Corporation", sector := "Technology",
    exchange := "NASDAQ", country := "USA", is_active := true }

def masterSeed : Master := [("AAPL", appleRec), ("MSFT", msftRec)]

/-- The seed in a different scan order (same mapping). -/
def masterSeedRev : Master := [("MSFT", msftRec), ("AAPL", appleRec)]

/-- The spec §8.4 sample row `AAPL,2024-01-02,100,105,99,104,1000`. -/
def sampleRow : RawRow :=
  { ticker := "AAPL", date := "2024-01-02", open_px := "100",
    high_px := "105", low_px := "99", close_px := "104", volume := "1000" }

/-- Same logical observation with a different payload. -/
def sampleRow2 : RawRow :=
  { ticker := "AAPL", date := "2024-01-02", open_px := "101",
    high_px := "106", low_px := "98", close_px := "103", volume := "2000" }

/-! ## Counting lemmas -/

lemma countTD_append (s₁ s₂ : ProcessedStore) (t d : String) :
    countTD (s₁ ++ s₂) t d = countTD s₁ t d + countTD s₂ t d := by
  simp [countTD, List.filter_append]

lemma countTD_transformOutputs (m : Master) (ia sf : String)
    (rows : List RawRow) (t d : String) :
    countTD (transformOutputs m ia sf rows) t d = tdCount rows t d := by
  induction rows with
  | nil => simp [transformOutputs, countTD, tdCount]
  | cons r rest ih =>
      simp only [transformOutputs, countTD, tdCount, List.map_cons,
        List.filter_cons] at *
      by_cases h : (r.ticker == t && r.date == d) = true
      · simp only [enrichRow] at *
        simp [h] at *
        omega
      · simp only [enrichRow] at *
        simp [h] at *
        exact ih

lemma countTD_runTransform (m : Master) (ia sf : String)
    (rows : List RawRow) (store : ProcessedStore) (t d : String) :
    countTD (runTransform m ia sf rows store) t d
      = countTD store t d + tdCount rows t d := by
  simp [runTransform, countTD_append, countTD_transformOutputs]

lemma countTD_runHistory_aux (m : Master) (calls : List TransformCall)
    (store : ProcessedStore) (t d : String) :
    countTD (calls.foldl
        (fun st c => runTransform m c.ingested_at c.source_file c.rows st)
        store) t d
      = countTD store t d + (calls.map (fun c => tdCount c.rows t d)).sum := by
  induction calls generalizing store with
  | nil => simp
  | cons c rest ih =>
      simp only [List.foldl_cons, List.map_cons, List.sum_cons]
      rw [ih, countTD_runTransform]
      omega

/-- Across any history of transform runs, the stored count per
(ticker, date) equals the total number of processed input rows with that
ticker and date. -/
lemma countTD_runHistory (m : Master) (calls : List TransformCall)
    (t d : String) :
    countTD (runHistory m calls) t d
      = (calls.map (fun c => tdCount c.rows t d)).sum := by
  rw [runHistory, countTD_runHistory_aux]
  simp [countTD]

/-! ## CDK stack embedding

The resources each stack's constructor instantiates, from `lib/*.ts` and
the two entry-point variants of `bin/stock-etl.ts`. -/

/-- The CloudFormation resources relevant to the claims. -/
inductive Resource where
  | rawBucket
  | processedBucket
  | curatedBucket
  | athenaResultsBucket
  | lambdaRole
  | glueRole
  | fetchStockFunction
  | dailySchedule
  | stockMasterTable
  | transformFunction
  | rawBucketTransformNotification
  | auroraCluster
  | glueScriptBucket
  | glueDatabase
  | glueJob
  | glueCrawler
  | rawBucketGlueNotification
  | athenaWorkGroup
deriving DecidableEq, Repr

/-- Retry policy of the EventBridge Scheduler target
(`scheduler-stack.ts`, `target.retryPolicy`). -/
structure RetryPolicy where
  maximumRetryAttempts : Nat
  maximumEventAgeInSeconds : Nat
deriving DecidableEq, Repr

/-- The CfnSchedule built by `SchedulerStack`. -/
structure ScheduleModel where
  name : String
  scheduleExpression : String
  state : String
  retryPolicy : Option RetryPolicy
deriving DecidableEq, Repr

/-- `SchedulerStack` (`lib/scheduler-stack.ts`): the schedule it creates,
as a function of the optional `scheduleEnabled` prop.  The constructor
computes `enabled = props.scheduleEnabled ?? false` and sets
`state: enabled ? 'ENABLED' : 'DISABLED'` and a fixed target retry policy. -/
def schedulerStackSchedule (scheduleEnabled : Option Bool) : ScheduleModel :=
  let enabled := scheduleEnabled.getD false
  { name := "DailyStockDataFetch"
    scheduleExpression := "cron(0 0 * * ? *)"
    state := if enabled then "ENABLED" else "DISABLED"
    retryPolicy := some { maximumRetryAttempts := 2,
                          maximumEventAgeInSeconds := 3600 } }

/-- The CfnJob built by `GlueStack` (`lib/glue-stack.ts`). -/
structure GlueJobModel where
  name : String
  maxRetries : Nat
  timeoutMinutes : Nat
deriving DecidableEq, Repr

/-- `GlueStack`'s ETL job: `maxRetries: 1`, `timeout: 60`.  The
constructor creates this job unconditionally. -/
def glueStackJob : GlueJobModel :=
  { name := "stock-data-csv-to-parquet", maxRetries := 1, timeoutMinutes := 60 }

/-- `GlueStack` (`lib/glue-stack.ts`): resources its constructor creates,
as a function of the optional `s3EventNotificationEnabled` prop
(default false).  The database, script bucket, ETL job and crawler are
created unconditionally; the raw-bucket S3 event notification (plus its
trigger Lambda) only when the flag is true. -/
def glueStackResources (s3EventNotificationEnabled : Option Bool) :
    List Resource :=
  [.glueDatabase, .glueScriptBucket, .glueJob, .glueCrawler] ++
    (if s3EventNotificationEnabled.getD false
      then [.rawBucketGlueNotification] else [])

/-- `LambdaTransformStack` (the free-tier CSV→Parquet stack): resources
its constructor creates, as a function of the optional `s3EventEnabled`
prop (default false).  The transform Lambda is always created; the
raw-bucket S3 event notification only when the flag is true. -/
def lambdaTransformStackResources (s3EventEnabled : Option Bool) :
    List Resource :=
  [.transformFunction] ++
    (if s3EventEnabled.getD false then [.rawBucketTransformNotification] else [])

/-- `S3Stack` (`lib/s3-stack.ts`): the four buckets. -/
def s3StackResources : List Resource :=
  [.rawBucket, .processedBucket, .curatedBucket, .athenaResultsBucket]

/-- `IamStack`: the Lambda and Glue execution roles. -/
def iamStackResources : List Resource := [.lambdaRole, .glueRole]

/-- The `bin/stock-etl.ts` entry-point variant with the `useFreeTier`
flag: the resources the app instantiates for each flag value.  Both
branches pass `scheduleEnabled: false` and disable the S3 event
notifications (`s3EventEnabled: false`, `s3EventNotificationEnabled: false`).
`useFreeTier = true` adds the DynamoDB master table, the Lambda transform
stack and a GlueStack; `useFreeTier = false` adds the Aurora cluster and a
GlueStack.  The Athena stack is created in both branches. -/
def appResources (useFreeTier : Bool) : List Resource :=
  s3StackResources ++ iamStackResources ++
    [.fetchStockFunction, .dailySchedule] ++
    (if useFreeTier then
      [.stockMasterTable] ++ lambdaTransformStackResources (some false) ++
        glueStackResources (some false)
    else
      [.auroraCluster] ++ glueStackResources (some false)) ++
    [.athenaWorkGroup]

/-- The `bin/stock-etl.ts` entry-point variant without the flag: always
Aurora + Glue, with `scheduleEnabled: false` and
`s3EventNotificationEnabled: false`. -/
def stockEtlAppResources : List Resource :=
  s3StackResources ++ iamStackResources ++ [.auroraCluster] ++
    [.fetchStockFunction, .dailySchedule] ++ glueStackResources (some false) ++
    [.athenaWorkGroup]

/-! ## S3 lifecycle embedding (`S3Stack`) -/

/-- One storage-class transition of a lifecycle rule. -/
structure Transition where
  storageClass : String
  transitionAfterDays : Nat
deriving DecidableEq, Repr

/-- One S3 lifecycle rule (expiration and/or transitions). -/
structure LifecycleRule where
  ruleId : String
  enabled : Bool
  expirationDays : Option Nat
  transitions : List Transition
deriving DecidableEq, Repr

/-- An S3 bucket with its lifecycle rules. -/
structure BucketModel where
  bucketName : String
  lifecycleRules : List LifecycleRule
deriving DecidableEq, Repr

/-- `S3Stack.rawBucket`: lifecycle rule `DeleteOldRawData`,
expiration after 90 days, no transitions. -/
def rawBucketModel (accountId : String) : BucketModel :=
  { bucketName := "stock-data-raw-" ++ accountId
    lifecycleRules :=
      [{ ruleId := "DeleteOldRawData", enabled := true,
         expirationDays := some 90, transitions := [] }] }

/-- `S3Stack.processedBucket`: lifecycle rule `TransitionToIA`,
transition to Intelligent-Tiering after 30 days, no expiration. -/
def processedBucketModel (accountId : String) : BucketModel :=
  { bucketName := "stock-data-processed-" ++ accountId
    lifecycleRules :=
      [{ ruleId := "TransitionToIA", enabled := true, expirationDays := none,
         transitions := [{ storageClass := "INTELLIGENT_TIERING",
                           transitionAfterDays := 30 }] }] }

/-- `S3Stack.curatedBucket`: lifecycle rule `TransitionToIA`,
transition to Intelligent-Tiering after 30 days, no expiration. -/
def curatedBucketModel (accountId : String) : BucketModel :=
  { bucketName := "stock-data-curated-" ++ accountId
    lifecycleRules :=
      [{ ruleId := "TransitionToIA", enabled := true, expirationDays := none,
         transitions := [{ storageClass := "INTELLIGENT_TIERING",
                           transitionAfterDays := 30 }] }] }

/-- `S3Stack`'s Athena results bucket: expiration after 7 days. -/
def athenaResultsBucketModel (accountId : String) : BucketModel :=
  { bucketName := "stock-athena-results-" ++ accountId
    lifecycleRules :=
      [{ ruleId := "DeleteOldQueryResults", enabled := true,
         expirationDays := some 7, transitions := [] }] }

/-- The effective object-expiration of a bucket: the first enabled
lifecycle rule carrying an expiration, if any. -/
def objectExpirationDays (b : BucketModel) : Option Nat :=
  (b.lifecycleRules.filterMap
    (fun r => if r.enabled then r.expirationDays else none)).head?

/-- All storage-class transitions of a bucket's enabled lifecycle rules. -/
def bucketTransitions (b : BucketModel) : List Transition :=
  (b.lifecycleRules.filter (fun r => r.enabled)).flatMap
    (fun r => r.transitions)

/-! ## Curated-views script embedding (`scripts/create-curated-views.js`,
five-view variant) -/

/-- Outcome of one Athena CTAS query, as observed by the script:
the start call may throw, polling may end in SUCCEEDED, FAILED or
CANCELLED. -/
inductive QueryOutcome where
  | succeeded
  | startError
  | failed
  | cancelled
deriving DecidableEq, Repr

/-- `executeQuery`: returns true when the query starts and completes;
`waitForQueryCompletion` throws on a FAILED or CANCELLED state, and the
surrounding try/catch turns any throw (start error included) into a
logged `false` — the run is never aborted. -/
def executeQuery (o : QueryOutcome) : Bool :=
  match o with
  | .succeeded => true
  | .startError => false
  | .failed => false
  | .cancelled => false

/-- The five curated views, in the fixed order `main` creates them. -/
def curatedViewNames : List String :=
  ["sector_daily_summary", "ticker_monthly_summary",
   "sector_performance_ranking", "cross_sector_comparison",
   "volatility_analysis"]

/-- Result of one run of the script's `main`. -/
structure ScriptRun where
  results : List (String × Bool)
  allSuccess : Bool
deriving DecidableEq, Repr

/-- `main` of the five-view script: executes the five CTAS queries in
order regardless of individual outcomes, records each view's success
flag, and reports overall success via `results.every(r => r.success)`. -/
def runCuratedViews (env : String → QueryOutcome) : ScriptRun :=
  let results := curatedViewNames.map (fun n => (n, executeQuery (env n)))
  { results := results, allSuccess := results.all (fun p => p.2) }

lemma executeQuery_eq_true (o : QueryOutcome) :
    executeQuery o = true ↔ o = QueryOutcome.succeeded := by
  cases o <;> simp [executeQuery]

/-! ## Spec-side layout definitions (for claim C5)

These two definitions follow the spec's §6 words, to be compared with the
source-derived `s3_key` and `output_key`. -/

/-- The spec's raw layout: `raw/.../..._....csv` over ticker, year,
month, day, date. -/
def specRawKeyLayout (ticker date : String) : String :=
  "raw/" ++ ticker ++ "/" ++ yearOf date ++ "/" ++ monthOf date ++ "/" ++
    dayOf date ++ "/" ++ ticker ++ "_" ++ date ++ ".csv"

/-- The spec's processed layout: a `processed/` super-directory above the
`sector=.../ticker=.../year=.../month=.../day=...` partition directories,
with the transform's actual file name standing in for `*.parquet`. -/
def specProcessedKeyLayout (sector ticker year month day : String) : String :=
  "processed/sector=" ++ sector ++ "/ticker=" ++ ticker ++ "/year=" ++ year ++
    "/month=" ++ month ++ "/day=" ++ day ++ "/data.parquet"

/-! ## Claim theorems -/

/-- C1: for every valid raw row with a known ticker, the transform's
output partition path is a deterministic pure function of
(sector, ticker, year, month, day): it equals the `output_key` template at
the row's resolved sector and partition fields, and any two rows (under
any two master snapshots) agreeing on that tuple map to the same
partition directory. -/
theorem output_partition_path_deterministic
    (m₁ m₂ : Master) (r₁ r₂ : RawRow) (rec : MasterRec)
    (h₁ : lookupMaster m₁ r₁.ticker = some rec)
    (h₂ : lookupMaster m₂ r₂.ticker = some rec)
    (ht : r₁.ticker = r₂.ticker)
    (hy : yearOf r₁.date = yearOf r₂.date)
    (hm : monthOf r₁.date = monthOf r₂.date)
    (hd : dayOf r₁.date = dayOf r₂.date) :
    rowOutputKey m₁ r₁
        = output_key rec.sector r₁.ticker (yearOf r₁.date) (monthOf r₁.date)
            (dayOf r₁.date) ∧
    rowOutputKey m₁ r₁ = rowOutputKey m₂ r₂ := by
  have s₁ : sectorOrUnknown m₁ r₁.ticker = rec.sector := by
    simp [sectorOrUnknown, h₁]
  have s₂ : sectorOrUnknown m₂ r₂.ticker = rec.sector := by
    simp [sectorOrUnknown, h₂]
  refine ⟨by rw [rowOutputKey, s₁], ?_⟩
  rw [rowOutputKey, rowOutputKey, s₁, s₂, ht, hy, hm, hd]

/-- Witness for C1: two distinct payloads of the same logical
(ticker, date) observation, looked up in two different master scan
orders, land in the same partition. -/
theorem output_partition_path_deterministic_witness :
    (lookupMaster masterSeed sampleRow.ticker = some appleRec ∧
     lookupMaster masterSeedRev sampleRow2.ticker = some appleRec ∧
     sampleRow.ticker = sampleRow2.ticker ∧
     yearOf sampleRow.date = yearOf sampleRow2.date ∧
     monthOf sampleRow.date = monthOf sampleRow2.date ∧
     dayOf sampleRow.date = dayOf sampleRow2.date) ∧
    (rowOutputKey masterSeed sampleRow
        = output_key appleRec.sector sampleRow.ticker (yearOf sampleRow.date)
            (monthOf sampleRow.date) (dayOf sampleRow.date) ∧
     rowOutputKey masterSeed sampleRow = rowOutputKey masterSeedRev sampleRow2) :=
  ⟨⟨by decide, by decide, by decide, by decide, by decide, by decide⟩,
   output_partition_path_deterministic masterSeed masterSeedRev sampleRow
     sampleRow2 appleRec (by decide) (by decide) (by decide) (by decide)
     (by decide) (by decide)⟩

/-- C2: re-running the transform on the same raw input file is not
idempotent: the second run appends its full output to (rather than
replacing) the first run's output, so the store strictly grows and the
per-(ticker, date) counts increase by the input's counts again. -/
theorem transform_rerun_not_idempotent
    (m : Master) (ia₁ sf₁ ia₂ sf₂ : String) (rows : List RawRow)
    (store : ProcessedStore) (h : rows ≠ []) :
    runTransform m ia₂ sf₂ rows (runTransform m ia₁ sf₁ rows store)
        = runTransform m ia₁ sf₁ rows store
            ++ transformOutputs m ia₂ sf₂ rows ∧
    runTransform m ia₂ sf₂ rows (runTransform m ia₁ sf₁ rows store)
        ≠ runTransform m ia₁ sf₁ rows store ∧
    ∀ t d,
      countTD (runTransform m ia₂ sf₂ rows
          (runTransform m ia₁ sf₁ rows store)) t d
        = countTD (runTransform m ia₁ sf₁ rows store) t d + tdCount rows t d := by
  refine ⟨rfl, ?_, fun t d => countTD_runTransform m ia₂ sf₂ rows _ t d⟩
  intro hEq
  have hlen := congrArg List.length hEq
  simp only [runTransform, transformOutputs, List.length_append,
    List.length_map] at hlen
  exact h (List.length_eq_zero.mp (by omega))

/-- Witness for C2: re-running the transform on the spec's sample row
duplicates it. -/
theorem transform_rerun_not_idempotent_witness :
    ([sampleRow] : List RawRow) ≠ [] ∧
    (runTransform masterSeed "t2" "f" [sampleRow]
        (runTransform masterSeed "t1" "f" [sampleRow] [])
       = runTransform masterSeed "t1" "f" [sampleRow] []
           ++ transformOutputs masterSeed "t2" "f" [sampleRow] ∧
     runTransform masterSeed "t2" "f" [sampleRow]
        (runTransform masterSeed "t1" "f" [sampleRow] [])
       ≠ runTransform masterSeed "t1" "f" [sampleRow] [] ∧
     ∀ t d,
       countTD (runTransform masterSeed "t2" "f" [sampleRow]
           (runTransform masterSeed "t1" "f" [sampleRow] [])) t d
         = countTD (runTransform masterSeed "t1" "f" [sampleRow] []) t d
             + tdCount [sampleRow] t d) :=
  ⟨by decide,
   transform_rerun_not_idempotent masterSeed "t1" "f" "t2" "f" [sampleRow] []
     (by decide)⟩

/-- C3 (code bug): with `useFreeTier = true`, the entry point still
instantiates `GlueStack`, whose constructor creates the Glue ETL job
unconditionally — contrary to the branch's own comments and stack
description ("free-tier, no ETL job").  The rest of the claimed branch
picture holds: the free-tier branch has the DynamoDB table and the Lambda
transform and no Aurora cluster; the paid branch has Aurora and the Glue
job and neither free-tier resource; both branches have the Glue database,
the crawler and the Athena stack. -/
theorem free_tier_branch_creates_glue_etl_job :
    Resource.glueJob ∈ appResources true ∧
    Resource.stockMasterTable ∈ appResources true ∧
    Resource.transformFunction ∈ appResources true ∧
    Resource.auroraCluster ∉ appResources true ∧
    Resource.auroraCluster ∈ appResources false ∧
    Resource.glueJob ∈ appResources false ∧
    Resource.stockMasterTable ∉ appResources false ∧
    Resource.transformFunction ∉ appResources false ∧
    (∀ b : Bool, Resource.glueDatabase ∈ appResources b ∧
      Resource.glueCrawler ∈ appResources b ∧
      Resource.athenaWorkGroup ∈ appResources b) := by
  decide

/-- C4: both external triggers are disabled by default: the schedule is
created DISABLED when `scheduleEnabled` is omitted or passed as `false`
(as both entry points do), and no raw-bucket S3 event notification is
attached by `GlueStack` or `LambdaTransformStack` under the omitted or
`false` prop, nor anywhere in either entry-point app. -/
theorem external_triggers_disabled_by_default :
    (schedulerStackSchedule none).state = "DISABLED" ∧
    (schedulerStackSchedule (some false)).state = "DISABLED" ∧
    Resource.rawBucketGlueNotification ∉ glueStackResources none ∧
    Resource.rawBucketGlueNotification ∉ glueStackResources (some false) ∧
    Resource.rawBucketTransformNotification
        ∉ lambdaTransformStackResources none ∧
    Resource.rawBucketTransformNotification
        ∉ lambdaTransformStackResources (some false) ∧
    (∀ b : Bool,
      Resource.rawBucketGlueNotification ∉ appResources b ∧
      Resource.rawBucketTransformNotification ∉ appResources b) ∧
    Resource.rawBucketGlueNotification ∉ stockEtlAppResources ∧
    Resource.rawBucketTransformNotification ∉ stockEtlAppResources := by
  decide

set_option maxRecDepth 4000

/-- C5 counterexample: the transform's key for the spec's sample row sits
at the processed bucket's root (first directory `sector=...`), not under
a `processed/` super-directory as the claim's layout states. -/
theorem processed_key_not_under_processed_dir :
    specProcessedKeyLayout "Technology" "AAPL" "2024" "01" "02"
        ≠ rowOutputKey masterSeed sampleRow ∧
    (rowOutputKey masterSeed sampleRow).take 10 ≠ "processed/" ∧
    rowOutputKey masterSeed sampleRow
        = "sector=Technology/ticker=AAPL/year=2024/month=01/day=02/data.parquet" := by
  refine ⟨by decide, by decide, by decide⟩

/-- C5 amended: the raw layout is exactly as the spec states, and the
processed layout differs from the spec's words only by the missing
`processed/` super-directory: processed objects are written at the bucket
root under `sector=.../ticker=.../year=.../month=.../day=.../data.parquet`. -/
theorem storage_layout_amended (ticker date sector year month day : String) :
    s3_key ticker date = specRawKeyLayout ticker date ∧
    "processed/" ++ output_key sector ticker year month day
        = specProcessedKeyLayout sector ticker year month day := by
  refine ⟨rfl, ?_⟩
  rw [output_key, specProcessedKeyLayout]
  simp only [← String.append_assoc]
  rfl

/-- C6 counterexample: transforming the same one-row file twice yields a
reachable processed store holding two enriched observations for
(AAPL, 2024-01-02), breaking the claimed `≤ 1` invariant. -/
theorem reprocessing_breaks_td_invariant :
    countTD (runHistory masterSeed
        [⟨"t1", "f", [sampleRow]⟩, ⟨"t2", "f", [sampleRow]⟩])
      "AAPL" "2024-01-02" = 2 := by
  decide

/-- C6 amended: the enriched observation count per (ticker, date) equals
the total number of input rows with that ticker and date across all
transform runs; in particular it stays `≤ 1` exactly on histories that
process each (ticker, date) row at most once. -/
theorem td_invariant_under_unique_processing
    (m : Master) (calls : List TransformCall) (t d : String)
    (h : (calls.map (fun c => tdCount c.rows t d)).sum ≤ 1) :
    countTD (runHistory m calls) t d ≤ 1 := by
  rw [countTD_runHistory]
  exact h

/-- Witness for the amended C6: a single processing of the sample file
keeps the count at most one. -/
theorem td_invariant_under_unique_processing_witness :
    (([⟨"t1", "f", [sampleRow]⟩] : List TransformCall).map
        (fun c => tdCount c.rows "AAPL" "2024-01-02")).sum ≤ 1 ∧
    countTD (runHistory masterSeed [⟨"t1", "f", [sampleRow]⟩])
        "AAPL" "2024-01-02" ≤ 1 :=
  ⟨by decide,
   td_invariant_under_unique_processing masterSeed [⟨"t1", "f", [sampleRow]⟩]
     "AAPL" "2024-01-02" (by decide)⟩

/-- C7 counterexample: the source does set retry configuration — the
EventBridge schedule target carries `retryPolicy` (2 attempts, 3600 s max
event age) for every value of the `scheduleEnabled` prop, and the Glue
ETL job sets `maxRetries: 1`. -/
theorem retry_configuration_present :
    (schedulerStackSchedule none).retryPolicy
        = some { maximumRetryAttempts := 2,
                 maximumEventAgeInSeconds := 3600 } ∧
    glueStackJob.maxRetries = 1 := by
  decide

/-- C7 amended: the source configures platform-level retries in exactly
these two places — every schedule the `SchedulerStack` creates carries a
target retry policy of 2 attempts within 3600 seconds, and the Glue ETL
job retries once; the curated-views script starts each of its five
queries exactly once per run, with no retry loop. -/
theorem retry_configuration_values (o : Option Bool)
    (env : String → QueryOutcome) :
    (schedulerStackSchedule o).retryPolicy
        = some { maximumRetryAttempts := 2,
                 maximumEventAgeInSeconds := 3600 } ∧
    glueStackJob.maxRetries = 1 ∧
    (runCuratedViews env).results.map Prod.fst = curatedViewNames := by
  refine ⟨?_, rfl, ?_⟩
  · cases o <;> rfl
  · rfl

/-- C8: on an empty raw file the transform emits zero output partitions,
leaves the processed store unchanged, and reports success with zero rows
processed. -/
theorem transform_empty_file (m : Master) (ia sf : String)
    (store : ProcessedStore) :
    transformOutputs m ia sf [] = [] ∧
    runTransformFile m ia sf [] store = (store, ⟨true, 0⟩) := by
  refine ⟨rfl, ?_⟩
  simp [runTransformFile, runTransform, transformOutputs]

/-- C9: for every assignment of outcomes to the five Athena CTAS queries,
the script attempts all five in the same fixed order (a failure never
aborts the run), records each view's success flag individually, and
reports overall success exactly when all five succeeded. -/
theorem curated_views_failures_do_not_abort (env : String → QueryOutcome) :
    (runCuratedViews env).results.map Prod.fst = curatedViewNames ∧
    (runCuratedViews env).results
        = curatedViewNames.map (fun n => (n, executeQuery (env n))) ∧
    ((runCuratedViews env).allSuccess = true ↔
      ∀ n ∈ curatedViewNames, env n = QueryOutcome.succeeded) := by
  refine ⟨rfl, rfl, ?_⟩
  simp [runCuratedViews, List.all_map, List.all_eq_true, Function.comp,
    executeQuery_eq_true]

/-- C10: retention is asymmetric across the three data-lake buckets —
raw objects expire 90 days after creation, while the processed and
curated buckets never expire objects and only transition them to
Intelligent-Tiering after 30 days. -/
theorem bucket_retention_asymmetric (accountId : String) :
    objectExpirationDays (rawBucketModel accountId) = some 90 ∧
    objectExpirationDays (processedBucketModel accountId) = none ∧
    objectExpirationDays (curatedBucketModel accountId) = none ∧
    bucketTransitions (rawBucketModel accountId) = [] ∧
    bucketTransitions (processedBucketModel accountId)
        = [{ storageClass := "INTELLIGENT_TIERING", transitionAfterDays := 30 }] ∧
    bucketTransitions (curatedBucketModel accountId)
        = [{ storageClass := "INTELLIGENT_TIERING", transitionAfterDays := 30 }] := by
  refine ⟨rfl, rfl, rfl, rfl, rfl, rfl⟩

end YF
